import Mathlib

/-!
Verification development for the Symptom Analysis Orchestrator of the
healthcare-ai-assistant repository (server/services/ai-service.ts).

The TypeScript service is shallowly embedded as executable Lean functions:

* JavaScript runtime values flowing out of JSON.parse are modelled by the
  inductive type Json.  JSON numbers are modelled by their integer part
  (fraction and exponent digits are accepted by the grammar but ignored);
  none of the values handled by the service involve fractional numbers.
* JSON.parse is modelled by jsonParse, a fuel-indexed recursive-descent
  parser over the character list of the input, following the JSON grammar
  (strict number syntax, escape sequences, whitespace, full-input check).
* The regular expressions of the service are modelled directly:
  the greedy spans of /\x7b[\s\S]*\x7d/ and /\[[\s\S]*\]/ are computed by
  extractSpan, and the enumeration stripper /^\d+\.?\s*/ by stripEnum.
* The Model Gateway (callGroqAPI) is modelled by its outcome: an
  Option String argument, none standing for a thrown provider error and
  some r for a successful call returning raw text r.  Prompt construction
  only feeds the remote model and does not influence any parsed result,
  so prompt strings and the optional patientInfo argument are not part of
  the embedded state.
* JavaScript operational details carried over faithfully: the defaulting
  operator x || d replaces exactly the falsy values (modelled by jsOr and
  truthy); String.prototype.includes is substring containment
  (chContains); Math.round is rounding half toward positive infinity
  (jsRound); Array.prototype.slice(0, n) is List.take n.
-/

/-- JavaScript values produced by JSON.parse, with numbers modelled by
their integer part. -/
inductive Json where
  | null : Json
  | bool : Bool → Json
  | num : Int → Json
  | str : String → Json
  | arr : List Json → Json
  | obj : List (String × Json) → Json

/-- JavaScript truthiness of a JSON value (objects and arrays are always
truthy; 0, the empty string, false and null are falsy). -/
def truthy : Json → Bool
  | Json.null => false
  | Json.bool b => b
  | Json.num n => if n = 0 then false else true
  | Json.str s => if s = "" then false else true
  | Json.arr _ => true
  | Json.obj _ => true

/-- Property access o.k on a parsed JSON object: the value of the last
binding of key k (JSON.parse keeps the last duplicate), none when the key
is absent or the value is not an object (JavaScript undefined). -/
def objGet (j : Json) (k : String) : Option Json :=
  match j with
  | Json.obj fields => fields.foldl (fun acc kv => if kv.1 = k then some kv.2 else acc) none
  | _ => none

/-- The JavaScript defaulting idiom v || d: the value when present and
truthy, the default otherwise. -/
def jsOr (v : Option Json) (d : Json) : Json :=
  match v with
  | some x => if truthy x then x else d
  | none => d

/-- JSON insignificant whitespace. -/
def isJsonWs (c : Char) : Bool :=
  c == ' ' || c == '\t' || c == '\n' || c == '\r'

/-- Drop leading JSON whitespace. -/
def skipWs (cs : List Char) : List Char := cs.dropWhile isJsonWs

/-- ASCII decimal digit test (regex \d). -/
def isDigit (c : Char) : Bool :=
  decide ('0' ≤ c) && decide (c ≤ '9')

/-- Value of a hexadecimal digit. -/
def hexVal (c : Char) : Option Nat :=
  if decide ('0' ≤ c) && decide (c ≤ '9') then some (c.toNat - 48)
  else if decide ('a' ≤ c) && decide (c ≤ 'f') then some (c.toNat - 87)
  else if decide ('A' ≤ c) && decide (c ≤ 'F') then some (c.toNat - 55)
  else none

/-- Single-character JSON string escapes. -/
def escMap (c : Char) : Option Char :=
  if c = '"' then some '"'
  else if c = '\\' then some '\\'
  else if c = '/' then some '/'
  else if c = 'b' then some (Char.ofNat 8)
  else if c = 'f' then some (Char.ofNat 12)
  else if c = 'n' then some '\n'
  else if c = 'r' then some '\r'
  else if c = 't' then some '\t'
  else none

/-- Parse the body of a JSON string after its opening quote, returning the
decoded characters and the remaining input after the closing quote.  Raw
control characters are rejected, escape sequences are decoded. -/
def parseStrBody : Nat → List Char → Option (List Char × List Char)
  | 0, _ => none
  | _, [] => none
  | fuel + 1, c :: rest =>
    if c = '"' then some ([], rest)
    else if c = '\\' then
      match rest with
      | 'u' :: h1 :: h2 :: h3 :: h4 :: r =>
        match hexVal h1, hexVal h2, hexVal h3, hexVal h4 with
        | some a, some b, some c2, some d =>
          match parseStrBody fuel r with
          | some (s, r2) => some (Char.ofNat (((a * 16 + b) * 16 + c2) * 16 + d) :: s, r2)
          | none => none
        | _, _, _, _ => none
      | e :: r =>
        match escMap e with
        | some ec =>
          match parseStrBody fuel r with
          | some (s, r2) => some (ec :: s, r2)
          | none => none
        | none => none
      | [] => none
    else if c.toNat < 32 then none
    else
      match parseStrBody fuel rest with
      | some (s, r2) => some (c :: s, r2)
      | none => none

/-- Split leading decimal digits. -/
def spanDigits (cs : List Char) : List Char × List Char :=
  (cs.takeWhile isDigit, cs.dropWhile isDigit)

/-- Numeric value of a digit sequence. -/
def digitsVal (ds : List Char) : Nat :=
  ds.foldl (fun a c => a * 10 + (c.toNat - 48)) 0

/-- Consume an optional fraction part and exponent part of a JSON number
(at least one digit each when present); their digits are ignored because
numbers are modelled by their integer part. -/
def skipFracExp (cs : List Char) : Option (List Char) :=
  let afterFrac : Option (List Char) :=
    match cs with
    | '.' :: r =>
      match spanDigits r with
      | ([], _) => none
      | (_, r2) => some r2
    | _ => some cs
  match afterFrac with
  | none => none
  | some cs2 =>
    match cs2 with
    | 'e' :: r | 'E' :: r =>
      let r2 := match r with
        | '+' :: q => q
        | '-' :: q => q
        | _ => r
      match spanDigits r2 with
      | ([], _) => none
      | (_, r3) => some r3
    | _ => some cs2

/-- Parse a JSON number (strict grammar: optional minus, no leading zeros),
returning its integer part. -/
def parseNum (cs : List Char) : Option (Int × List Char) :=
  let signSplit : Bool × List Char :=
    match cs with
    | '-' :: r => (true, r)
    | _ => (false, cs)
  let neg := signSplit.1
  let cs1 := signSplit.2
  let core : Option (Nat × List Char) :=
    match cs1 with
    | '0' :: r =>
      match r with
      | c :: _ => if isDigit c then none else some (0, r)
      | [] => some (0, [])
    | c :: _ =>
      if isDigit c then
        let p := spanDigits cs1
        some (digitsVal p.1, p.2)
      else none
    | [] => none
  match core with
  | none => none
  | some (n, r) =>
    match skipFracExp r with
    | none => none
    | some r2 => some ((if neg then -(n : Int) else (n : Int)), r2)

/-- Parsing continuations: a value, the items of an array after the first
opening bracket, or the members of an object after the opening brace. -/
inductive PK where
  | pval : PK
  | parr : List Json → PK
  | pobj : List (String × Json) → PK

/-- Fuel-indexed recursive-descent JSON parser core. -/
def parseCore : Nat → PK → List Char → Option (Json × List Char)
  | 0, _, _ => none
  | fuel + 1, PK.pval, cs0 =>
    let cs := skipWs cs0
    match cs with
    | 'n' :: 'u' :: 'l' :: 'l' :: r => some (Json.null, r)
    | 't' :: 'r' :: 'u' :: 'e' :: r => some (Json.bool true, r)
    | 'f' :: 'a' :: 'l' :: 's' :: 'e' :: r => some (Json.bool false, r)
    | '"' :: r =>
      match parseStrBody (fuel + 1) r with
      | some (s, r2) => some (Json.str (String.mk s), r2)
      | none => none
    | '[' :: r =>
      match skipWs r with
      | ']' :: r2 => some (Json.arr [], r2)
      | r2 => parseCore fuel (PK.parr []) r2
    | '{' :: r =>
      match skipWs r with
      | '}' :: r2 => some (Json.obj [], r2)
      | r2 => parseCore fuel (PK.pobj []) r2
    | _ =>
      match parseNum cs with
      | some (n, r) => some (Json.num n, r)
      | none => none
  | fuel + 1, PK.parr acc, cs =>
    match parseCore fuel PK.pval cs with
    | some (v, r) =>
      match skipWs r with
      | ',' :: r2 => parseCore fuel (PK.parr (acc ++ [v])) r2
      | ']' :: r2 => some (Json.arr (acc ++ [v]), r2)
      | _ => none
    | none => none
  | fuel + 1, PK.pobj acc, cs =>
    match skipWs cs with
    | '"' :: r =>
      match parseStrBody (fuel + 1) r with
      | some (k, r1) =>
        match skipWs r1 with
        | ':' :: r2 =>
          match parseCore fuel PK.pval r2 with
          | some (v, r3) =>
            match skipWs r3 with
            | ',' :: r4 => parseCore fuel (PK.pobj (acc ++ [(String.mk k, v)])) r4
            | '}' :: r4 => some (Json.obj (acc ++ [(String.mk k, v)]), r4)
            | _ => none
          | none => none
        | _ => none
      | none => none
    | _ => none

/-- The model of JSON.parse: parse one value and require that only
whitespace remains.  The fuel bound dominates the recursion depth of any
parse of the input. -/
def jsonParse (s : String) : Option Json :=
  let cs := s.toList
  match parseCore (2 * cs.length + 8) PK.pval cs with
  | some (j, r) => if (skipWs r).isEmpty then some j else none
  | none => none

/-- Greedy span of the regex o[\s\S]*cl: from the first occurrence of the
opening character to the last occurrence of the closing character, when
the latter comes after the former; none when the regex has no match. -/
def extractSpan (o cl : Char) (s : String) : Option String :=
  match s.toList.dropWhile (fun c => !(c == o)) with
  | [] => none
  | t =>
    match t.reverse.dropWhile (fun c => !(c == cl)) with
    | [] => none
    | r => some (String.mk r.reverse)

/-- ASCII lower-casing of one character (String.prototype.toLowerCase
restricted to the ASCII range used by the service's keyword tables). -/
def lowerChar (c : Char) : Char :=
  if decide ('A' ≤ c) && decide (c ≤ 'Z') then Char.ofNat (c.toNat + 32) else c

/-- The model of String.prototype.toLowerCase. -/
def toLowerCase (s : String) : String := String.mk (s.toList.map lowerChar)

/-- Does the character list start with the given pattern. -/
def chStarts : List Char → List Char → Bool
  | _, [] => true
  | [], _ :: _ => false
  | c :: cs, d :: ds => c == d && chStarts cs ds

/-- Substring containment, the model of String.prototype.includes. -/
def chContains : List Char → List Char → Bool
  | [], pat => chStarts [] pat
  | c :: t, pat => chStarts (c :: t) pat || chContains t pat

/-- JavaScript whitespace characters relevant to trim and regex \s for the
ASCII inputs handled here. -/
def isWsJS (c : Char) : Bool :=
  c == ' ' || c == '\t' || c == '\n' || c == '\r' || c == Char.ofNat 11 || c == Char.ofNat 12

/-- The model of String.prototype.trim. -/
def trimWs (l : List Char) : List Char :=
  ((l.dropWhile isWsJS).reverse.dropWhile isWsJS).reverse

/-- One application of line.replace(/^\d+\.?\s*/, ''): strip leading
digits, then an optional dot, then any whitespace; leave the line
unchanged when it does not start with a digit. -/
def stripEnum (l : List Char) : List Char :=
  match l with
  | c :: _ =>
    if isDigit c then
      let r1 := l.dropWhile isDigit
      let r2 := match r1 with
        | '.' :: r => r
        | _ => r1
      r2.dropWhile isWsJS
    else l
  | [] => l

/-- The model of String.prototype.split with separator newline. -/
def splitLines : List Char → List (List Char)
  | [] => [[]]
  | c :: rest =>
    if c = '\n' then [] :: splitLines rest
    else
      match splitLines rest with
      | [] => [[c]]
      | l :: ls => (c :: l) :: ls

/-- Math.round (half rounds toward positive infinity) of the quotient
a / b; the service only ever divides by the length 3 of a pattern's
diagnosis list, so b = 0 cannot occur. -/
def jsRound (a : Int) (b : Nat) : Int :=
  if b = 0 then 0 else Int.fdiv (2 * a + b) (2 * b)

/-- The interaction mode of a consultation. -/
inductive Mode where
  | doctor : Mode
  | patient : Mode
deriving DecidableEq

/-- The DiagnosisResult interface of the service (typed shape). -/
structure DiagnosisResult where
  name : String
  description : String
  confidence : Int
  category : String
  redFlags : List String
  recommendedTests : List String
deriving DecidableEq

/-- The AIAnalysisResult interface of the service (typed shape). -/
structure AIAnalysisResult where
  diagnoses : List DiagnosisResult
  followUpQuestions : List String
  redFlags : List String
  recommendedTests : List String
  overallConfidence : Int
deriving DecidableEq

/-- The analysis result as a JavaScript runtime object: every field holds
whatever JSON value the untyped parsing pipeline assigned to it (the
TypeScript annotations are not enforced at runtime). -/
structure AIAnalysisResultJS where
  diagnoses : Json
  followUpQuestions : Json
  redFlags : Json
  recommendedTests : Json
  overallConfidence : Json

/-- The runtime object denoted by a typed DiagnosisResult. -/
def DiagnosisResult.toJS (d : DiagnosisResult) : Json :=
  Json.obj [
    ("name", Json.str d.name),
    ("description", Json.str d.description),
    ("confidence", Json.num d.confidence),
    ("category", Json.str d.category),
    ("redFlags", Json.arr (d.redFlags.map Json.str)),
    ("recommendedTests", Json.arr (d.recommendedTests.map Json.str))]

/-- The runtime object denoted by a typed AIAnalysisResult. -/
def AIAnalysisResult.toJS (r : AIAnalysisResult) : AIAnalysisResultJS :=
  { diagnoses := Json.arr (r.diagnoses.map DiagnosisResult.toJS)
    followUpQuestions := Json.arr (r.followUpQuestions.map Json.str)
    redFlags := Json.arr (r.redFlags.map Json.str)
    recommendedTests := Json.arr (r.recommendedTests.map Json.str)
    overallConfidence := Json.num r.overallConfidence }

/-- The object literal returned by fallbackParsing; the response argument
is unused in the source as well. -/
def fallbackParsing (_response : String) : AIAnalysisResultJS :=
  { diagnoses := Json.arr [Json.obj [
      ("name", Json.str "Analysis Available"),
      ("description", Json.str "AI analysis completed. Please review the detailed response."),
      ("confidence", Json.num 75),
      ("category", Json.str "General"),
      ("redFlags", Json.arr []),
      ("recommendedTests", Json.arr [])]]
    followUpQuestions := Json.arr []
    redFlags := Json.arr []
    recommendedTests := Json.arr []
    overallConfidence := Json.num 75 }

/-- parseReasonerResponse: extract the greedy brace span, decode it, and
map the decoded object onto the result shape with the || defaults; fall
back to fallbackParsing when no span is found or decoding fails. -/
def parseReasonerResponse (response : String) : AIAnalysisResultJS :=
  match extractSpan '{' '}' response with
  | some t =>
    match jsonParse t with
    | some parsed =>
      { diagnoses := jsOr (objGet parsed "diagnoses") (Json.arr [])
        followUpQuestions := Json.arr []
        redFlags := jsOr (objGet parsed "redFlags") (Json.arr [])
        recommendedTests := jsOr (objGet parsed "recommendedTests") (Json.arr [])
        overallConfidence := jsOr (objGet parsed "overallConfidence") (Json.num 0) }
    | none => fallbackParsing response
  | none => fallbackParsing response

/-- The fixed generic clarification questions of parseFollowUpQuestions. -/
def defaultQuestions : List String :=
  ["Can you describe the onset and duration of your symptoms?",
   "Have you experienced any associated symptoms?",
   "Are there any specific triggers or patterns you\x27ve noticed?"]

/-- Heuristic question extraction of parseFollowUpQuestions: lines of the
response containing a question mark, trimmed and with a leading
enumeration stripped, at most five of them. -/
def heuristicQuestions (response : String) : List String :=
  ((((splitLines response.toList).filter
      (fun l => l.contains '?')).map
      (fun l => String.mk (stripEnum (trimWs l)))).take 5)

/-- parseFollowUpQuestions: decode the greedy bracket span as a JSON array
and return it unchanged on success (a span starting with an opening
bracket can only decode to an array); otherwise return the heuristic
questions, or the three generic questions when the heuristic yields
nothing.  Elements are runtime JSON values: nothing enforces that a
decoded array holds strings. -/
def parseFollowUpQuestions (response : String) : List Json :=
  let viaJson : Option (List Json) :=
    match extractSpan '[' ']' response with
    | some t =>
      match jsonParse t with
      | some (Json.arr l) => some l
      | _ => none
    | none => none
  match viaJson with
  | some l => l
  | none =>
    let questions := heuristicQuestions response
    (if questions.isEmpty then defaultQuestions else questions).map Json.str

/-- A diagnosis stub of the demo pattern table. -/
structure DemoDiag where
  name : String
  confidence : Int
  category : String
deriving DecidableEq

/-- One entry of the demo pattern table. -/
structure SymptomPattern where
  keywords : List String
  diagnoses : List DemoDiag
  questions : List String
  redFlags : List String
  tests : List String
deriving DecidableEq

/-- The febrile-illness pattern (first table entry). -/
def febrilePattern : SymptomPattern :=
  { keywords := ["fever", "joint pain", "muscle ache"]
    diagnoses := [
      { name := "Dengue Fever", confidence := 72, category := "Viral Infection" },
      { name := "Chikungunya", confidence := 20, category := "Viral Infection" },
      { name := "Viral Fever", confidence := 8, category := "Viral Infection" }]
    questions := [
      "How long has the fever lasted?",
      "Any recent travel to tropical areas?",
      "Any skin rashes or bleeding?",
      "Has there been sore throat or cough?"]
    redFlags := ["Check for bleeding gums", "Monitor platelet count"]
    tests := ["CBC with platelet count", "Dengue NS1 antigen", "Liver function tests"] }

/-- The headache pattern (second table entry). -/
def headachePattern : SymptomPattern :=
  { keywords := ["headache", "migraine", "head pain"]
    diagnoses := [
      { name := "Tension Headache", confidence := 65, category := "Neurological" },
      { name := "Migraine", confidence := 25, category := "Neurological" },
      { name := "Cluster Headache", confidence := 10, category := "Neurological" }]
    questions := [
      "Where exactly is the pain located?",
      "Is the pain throbbing or constant?",
      "Any visual changes or nausea?",
      "What triggers seem to make it worse?"]
    redFlags := ["Sudden severe headache", "Neck stiffness", "Vision changes"]
    tests := ["Neurological examination", "Blood pressure check", "CT scan if severe"] }

/-- The chest-symptom pattern (third table entry). -/
def chestPattern : SymptomPattern :=
  { keywords := ["chest pain", "breathing", "shortness of breath"]
    diagnoses := [
      { name := "Anxiety", confidence := 45, category := "Psychological" },
      { name := "Acid Reflux", confidence := 30, category := "Gastrointestinal" },
      { name := "Costochondritis", confidence := 25, category := "Musculoskeletal" }]
    questions := [
      "Is the pain sharp or burning?",
      "Does it worsen with deep breathing?",
      "Any recent stress or anxiety?",
      "Does it relate to eating or lying down?"]
    redFlags := ["Severe crushing chest pain", "Pain radiating to arm/jaw", "Severe shortness of breath"]
    tests := ["ECG", "Chest X-ray", "Stress test if indicated"] }

/-- The ordered demo pattern table. -/
def patterns : List SymptomPattern := [febrilePattern, headachePattern, chestPattern]

/-- Number of keywords of the pattern occurring as substrings of the
lower-cased symptom text. -/
def countMatches (sl : List Char) (p : SymptomPattern) : Nat :=
  (p.keywords.filter (fun k => chContains sl k.toList)).length

/-- The pattern selection loop of generateDemoAnalysis: fold over the
table keeping the first pattern whose match count strictly exceeds the
running maximum, starting from the first table entry with count 0. -/
def selectBest (sl : List Char) : SymptomPattern :=
  (patterns.foldl
    (fun acc p =>
      let m := countMatches sl p
      if acc.2 < m then (p, m) else acc)
    (febrilePattern, 0)).1

/-- The static description lookup of generateDiagnosisDescription, with
its mode-dependent default for names outside the table. -/
def generateDiagnosisDescription (name : String) (mode : Mode) : String :=
  if name = "Dengue Fever" then
    match mode with
    | Mode.doctor => "Mosquito-borne viral infection. Monitor for hemorrhagic complications and plasma leakage."
    | Mode.patient => "A viral infection spread by mosquitoes. Usually gets better with rest and fluids, but needs monitoring."
  else if name = "Chikungunya" then
    match mode with
    | Mode.doctor => "Alphavirus infection with characteristic joint involvement. Chronic arthralgia may persist."
    | Mode.patient => "A viral infection that causes fever and joint pain. Joint pain may last several weeks."
  else if name = "Tension Headache" then
    match mode with
    | Mode.doctor => "Primary headache disorder. Often stress-related with bilateral distribution."
    | Mode.patient => "Common type of headache often caused by stress, tension, or muscle strain in the head and neck."
  else if name = "Migraine" then
    match mode with
    | Mode.doctor => "Neurological disorder with recurrent episodes. Consider prophylaxis if frequent."
    | Mode.patient => "A type of headache that can be very painful and may come with nausea or sensitivity to light."
  else
    match mode with
    | Mode.doctor => "Clinical condition requiring evaluation."
    | Mode.patient => "Medical condition that should be evaluated by a healthcare provider."

/-- Assembly of the demo analysis from the selected pattern: the body of
generateDemoAnalysis after its selection loop (factored out so that the
result can be analysed per table entry). -/
def demoCore (bestMatch : SymptomPattern) (mode : Mode) : AIAnalysisResult :=
  let modeSpecificQuestions :=
    bestMatch.questions ++
      (match mode with
       | Mode.doctor => ["What are the vital signs?", "Any relevant medical history?", "Current medications?"]
       | Mode.patient => ["How would you rate the pain from 1-10?", "Does anything make it better or worse?", "Are you taking any medications?"])
  let diagnoses := bestMatch.diagnoses.map (fun d =>
    { name := d.name
      description := generateDiagnosisDescription d.name mode
      confidence := d.confidence
      category := d.category
      redFlags :=
        match mode with
        | Mode.doctor => bestMatch.redFlags
        | Mode.patient => bestMatch.redFlags.map (fun flag => "⚠️ " ++ flag)
      recommendedTests := bestMatch.tests : DiagnosisResult })
  let overallConfidence :=
    jsRound (diagnoses.foldl (fun sum d => sum + d.confidence) 0) diagnoses.length
  { diagnoses := diagnoses
    followUpQuestions := modeSpecificQuestions.take 5
    redFlags := bestMatch.redFlags
    recommendedTests := bestMatch.tests
    overallConfidence := overallConfidence }

/-- generateDemoAnalysis: lower-case the symptoms, select the best
matching pattern, assemble the demo analysis. -/
def generateDemoAnalysis (symptoms : String) (mode : Mode) : AIAnalysisResult :=
  demoCore (selectBest ((toLowerCase symptoms).toList)) mode

/-- analyzeSymptoms as a function of the Model Gateway outcome for the
reasoner call: a successful call is parsed, a thrown error is caught and
answered by the demo fallback engine. -/
def analyzeSymptoms (gatewayOutcome : Option String) (symptoms : String) (mode : Mode) : AIAnalysisResultJS :=
  match gatewayOutcome with
  | some response => parseReasonerResponse response
  | none => (generateDemoAnalysis symptoms mode).toJS

/-- The connectivity report of checkApiHealth. -/
structure HealthStatus where
  reasoner : String
  chat : String
deriving DecidableEq

/-- Case-insensitive containment of the text ok, the health probe of
checkApiHealth. -/
def containsOk (s : String) : Bool :=
  chContains (toLowerCase s).toList ['o', 'k']

/-- checkApiHealth as a function of the two sequential test-call outcomes:
both calls sit in one try block, so a throw from either resolves the
whole check to disconnected for both slots. -/
def checkApiHealth (reasonerOutcome chatOutcome : Option String) : HealthStatus :=
  match reasonerOutcome, chatOutcome with
  | some rt, some ct =>
    { reasoner := if containsOk rt then "connected" else "responding"
      chat := if containsOk ct then "connected" else "responding" }
  | _, _ => { reasoner := "disconnected", chat := "disconnected" }

/-- Does a runtime diagnosis candidate carry a numeric confidence inside
the range [0, 100]. -/
def candConfOK (j : Json) : Bool :=
  match objGet j "confidence" with
  | some (Json.num c) => decide (0 ≤ c) && decide (c ≤ 100)
  | _ => false

/-- The result invariant stated by the specification, as a checker on
runtime result objects: the four list fields hold arrays, every candidate
confidence and the overall confidence are numbers in [0, 100]. -/
def resultWF (r : AIAnalysisResultJS) : Bool :=
  (match r.diagnoses with
   | Json.arr l => l.all candConfOK
   | _ => false) &&
  (match r.followUpQuestions with
   | Json.arr _ => true
   | _ => false) &&
  (match r.redFlags with
   | Json.arr _ => true
   | _ => false) &&
  (match r.recommendedTests with
   | Json.arr _ => true
   | _ => false) &&
  (match r.overallConfidence with
   | Json.num c => decide (0 ≤ c) && decide (c ≤ 100)
   | _ => false)

/-- First diagnosis candidate of a sample patient-mode demo analysis
(used to instantiate per-candidate statements). -/
def demoSampleDiag : DiagnosisResult :=
  (generateDemoAnalysis "x" Mode.patient).diagnoses.headD
    { name := "", description := "", confidence := 0, category := "", redFlags := [], recommendedTests := [] }

/-! Helper lemmas shared by the claim theorems. -/

/-- Whenever no brace span is found or the span does not decode,
parseReasonerResponse answers with the synthetic fallback object. -/
theorem parseReasoner_fallback (s : String)
    (h : extractSpan '{' '}' s = none ∨
         ∃ t, extractSpan '{' '}' s = some t ∧ jsonParse t = none) :
    parseReasonerResponse s = fallbackParsing s := by
  rcases h with h | ⟨t, ht, hp⟩
  · simp only [parseReasonerResponse, h]
  · simp only [parseReasonerResponse, ht, hp]

/-- The selection fold over the three-entry pattern table, written as
nested comparisons of the three match counts. -/
theorem selectBest_eq (sl : List Char) :
    selectBest sl =
      if countMatches sl febrilePattern < countMatches sl headachePattern then
        (if countMatches sl headachePattern < countMatches sl chestPattern then chestPattern else headachePattern)
      else
        (if countMatches sl febrilePattern < countMatches sl chestPattern then chestPattern else febrilePattern) := by
  have hstep : (if (0 : Nat) < countMatches sl febrilePattern
      then (febrilePattern, countMatches sl febrilePattern) else (febrilePattern, 0))
      = (febrilePattern, countMatches sl febrilePattern) := by
    rcases Nat.eq_zero_or_pos (countMatches sl febrilePattern) with h | h
    · simp [h]
    · simp [h]
  simp only [selectBest, patterns, List.foldl]
  simp only [hstep]
  by_cases h1 : countMatches sl febrilePattern < countMatches sl headachePattern
  · simp only [h1, if_true]
    by_cases h2 : countMatches sl headachePattern < countMatches sl chestPattern
    · simp [h2]
    · simp [h2]
  · simp only [h1, if_false]
    by_cases h2 : countMatches sl febrilePattern < countMatches sl chestPattern
    · simp [h2]
    · simp [h2]

/-- The selected pattern is always one of the three table entries. -/
theorem selectBest_mem (sl : List Char) :
    selectBest sl = febrilePattern ∨ selectBest sl = headachePattern ∨
      selectBest sl = chestPattern := by
  rw [selectBest_eq]
  split_ifs <;> simp

/-- Every demo analysis satisfies the result invariant: the selected
pattern is one of the three table entries, and each of the six
pattern-mode combinations assembles a well-formed result. -/
theorem demo_wf (s : String) (m : Mode) :
    resultWF ((generateDemoAnalysis s m).toJS) = true := by
  unfold generateDemoAnalysis
  rcases selectBest_mem ((toLowerCase s).toList) with h | h | h <;> rw [h] <;> cases m <;> decide

/-- Every character of a line produced by splitLines occurs in the split
input. -/
theorem splitLines_chars (cs : List Char) : ∀ l ∈ splitLines cs, ∀ c ∈ l, c ∈ cs := by
  induction cs with
  | nil =>
    intro l hl c hc
    simp only [splitLines, List.mem_singleton] at hl
    subst hl
    simp at hc
  | cons a rest ih =>
    intro l hl c hc
    simp only [splitLines] at hl
    by_cases ha : a = '\n'
    · rw [if_pos ha] at hl
      rcases List.mem_cons.mp hl with rfl | hl
      · simp at hc
      · exact List.mem_cons_of_mem _ (ih l hl c hc)
    · rw [if_neg ha] at hl
      rcases heq : splitLines rest with _ | ⟨l0, ls⟩
      · rw [heq] at hl
        have hl' : l = [a] := List.mem_singleton.mp hl
        subst hl'
        have hc' : c = a := List.mem_singleton.mp hc
        subst hc'
        exact List.mem_cons_self _ _
      · rw [heq] at hl
        rcases List.mem_cons.mp hl with rfl | hl
        · rcases List.mem_cons.mp hc with rfl | hc
          · exact List.mem_cons_self _ _
          · have hmem : l0 ∈ splitLines rest := by
              rw [heq]; exact List.mem_cons_self _ _
            exact List.mem_cons_of_mem _ (ih l0 hmem c hc)
        · have hmem : l ∈ splitLines rest := by
            rw [heq]; exact List.mem_cons_of_mem _ hl
          exact List.mem_cons_of_mem _ (ih l hmem c hc)

/-- A response without a question mark has no heuristic questions. -/
theorem heuristic_empty_of_no_qmark (s : String) (h : ¬ '?' ∈ s.toList) :
    heuristicQuestions s = [] := by
  unfold heuristicQuestions
  have hfilter : (splitLines s.toList).filter (fun l => l.contains '?') = [] := by
    rw [List.filter_eq_nil_iff]
    intro l hl hcontains
    have hq : '?' ∈ l := by
      simpa using hcontains
    exact h (splitLines_chars s.toList l hl '?' hq)
  rw [hfilter]
  rfl

/-- C2: when the Model Gateway always fails, analyzing fever and joint
pain in doctor mode returns normally via the demo engine, with the
febrile pattern's three ranked diagnoses (Dengue Fever 72, Chikungunya
20, Viral Fever 8, in order) and overallConfidence the rounded mean of
the three confidences, namely 33. -/
theorem claim2_demo_febrile :
    analyzeSymptoms none "fever and joint pain" Mode.doctor
        = (generateDemoAnalysis "fever and joint pain" Mode.doctor).toJS ∧
    (generateDemoAnalysis "fever and joint pain" Mode.doctor).diagnoses.map
        (fun d => (d.name, d.confidence))
        = [("Dengue Fever", 72), ("Chikungunya", 20), ("Viral Fever", 8)] ∧
    (generateDemoAnalysis "fever and joint pain" Mode.doctor).overallConfidence
        = jsRound (72 + 20 + 8) 3 ∧
    jsRound (72 + 20 + 8) 3 = 33 :=
  ⟨rfl, by decide, by decide, by decide⟩

set_option maxRecDepth 4096 in
/-- C3: parseReasonerResponse extracts the greedy span from the first
opening brace to the last closing brace and decodes it as JSON; on the
cited prose-wrapped response it returns exactly one diagnosis candidate
named X with confidence 90, ignoring the surrounding prose. -/
theorem claim3_greedy_span_decodes :
    extractSpan '{' '}' "Here is the result: \x7b\"diagnoses\":[\x7b\"name\":\"X\",\"description\":\"d\",\"confidence\":90,\"category\":\"c\",\"redFlags\":[],\"recommendedTests\":[]\x7d],\"overallConfidence\":90,\"redFlags\":[],\"recommendedTests\":[]\x7d Thanks."
        = some "\x7b\"diagnoses\":[\x7b\"name\":\"X\",\"description\":\"d\",\"confidence\":90,\"category\":\"c\",\"redFlags\":[],\"recommendedTests\":[]\x7d],\"overallConfidence\":90,\"redFlags\":[],\"recommendedTests\":[]\x7d" ∧
    parseReasonerResponse "Here is the result: \x7b\"diagnoses\":[\x7b\"name\":\"X\",\"description\":\"d\",\"confidence\":90,\"category\":\"c\",\"redFlags\":[],\"recommendedTests\":[]\x7d],\"overallConfidence\":90,\"redFlags\":[],\"recommendedTests\":[]\x7d Thanks."
        = { diagnoses := Json.arr [Json.obj [
              ("name", Json.str "X"),
              ("description", Json.str "d"),
              ("confidence", Json.num 90),
              ("category", Json.str "c"),
              ("redFlags", Json.arr []),
              ("recommendedTests", Json.arr [])]]
            followUpQuestions := Json.arr []
            redFlags := Json.arr []
            recommendedTests := Json.arr []
            overallConfidence := Json.num 90 } :=
  ⟨rfl, rfl⟩

/-- C5: on any response with no brace span, or whose span fails to
decode, parseReasonerResponse returns (without raising) the synthetic
Analysis Available candidate with confidence 75, category General, empty
lists everywhere, and overall confidence 75. -/
theorem claim5_fallback_result (s : String)
    (h : extractSpan '{' '}' s = none ∨
         ∃ t, extractSpan '{' '}' s = some t ∧ jsonParse t = none) :
    parseReasonerResponse s =
      { diagnoses := Json.arr [Json.obj [
          ("name", Json.str "Analysis Available"),
          ("description", Json.str "AI analysis completed. Please review the detailed response."),
          ("confidence", Json.num 75),
          ("category", Json.str "General"),
          ("redFlags", Json.arr []),
          ("recommendedTests", Json.arr [])]]
        followUpQuestions := Json.arr []
        redFlags := Json.arr []
        recommendedTests := Json.arr []
        overallConfidence := Json.num 75 } :=
  parseReasoner_fallback s h

/-- Witness for C5 at a concrete prose response without any JSON. -/
theorem claim5_witness :
    parseReasonerResponse "The model replied with plain prose." =
      { diagnoses := Json.arr [Json.obj [
          ("name", Json.str "Analysis Available"),
          ("description", Json.str "AI analysis completed. Please review the detailed response."),
          ("confidence", Json.num 75),
          ("category", Json.str "General"),
          ("redFlags", Json.arr []),
          ("recommendedTests", Json.arr [])]]
        followUpQuestions := Json.arr []
        redFlags := Json.arr []
        recommendedTests := Json.arr []
        overallConfidence := Json.num 75 } :=
  claim5_fallback_result "The model replied with plain prose." (Or.inl rfl)

/-- C10: checkApiHealth never raises; a throw from either test call
resolves both slots to disconnected, and when both calls succeed each
slot independently reports connected when its response contains ok
case-insensitively, responding otherwise. -/
theorem claim10_health_coupling (r c : Option String) :
    ((r = none ∨ c = none) →
      checkApiHealth r c = { reasoner := "disconnected", chat := "disconnected" }) ∧
    (∀ rt ct, r = some rt → c = some ct →
      checkApiHealth r c =
        { reasoner := if containsOk rt then "connected" else "responding"
          chat := if containsOk ct then "connected" else "responding" }) := by
  constructor
  · rintro (rfl | rfl)
    · rfl
    · cases r <;> rfl
  · rintro rt ct rfl rfl
    rfl

/-- Witness for C10: a lone chat failure still reports both slots
disconnected, and a successful pair reports each slot on its own text. -/
theorem claim10_witness :
    checkApiHealth (some "All OK here") none
        = { reasoner := "disconnected", chat := "disconnected" } ∧
    checkApiHealth (some "All OK here") (some "hmm")
        = { reasoner := "connected", chat := "responding" } := by
  constructor
  · exact (claim10_health_coupling (some "All OK here") none).1 (Or.inr rfl)
  · have h := (claim10_health_coupling (some "All OK here") (some "hmm")).2
      "All OK here" "hmm" rfl rfl
    rw [h]
    decide

/-- The defaulting idiom yields the default exactly when the value is
absent or falsy. -/
theorem jsOr_default (o : Option Json) (d : Json)
    (h : o = none ∨ ∃ v, o = some v ∧ truthy v = false) : jsOr o d = d := by
  rcases h with rfl | ⟨v, rfl, hv⟩
  · rfl
  · simp [jsOr, hv]

/-- The defaulting idiom passes any present truthy value through
unchanged. -/
theorem jsOr_truthy (o : Option Json) (d v : Json)
    (ho : o = some v) (hv : truthy v = true) : jsOr o d = v := by
  subst ho
  simp [jsOr, hv]

/-- C1 (amended): analyzeSymptoms always returns normally, and on every
execution that does not decode a JSON object from the gateway response
(gateway failure, no brace span, or undecodable span) the result is
well-formed: the four list fields are arrays and every confidence lies in
[0,100].  Decoded JSON field values, by contrast, pass through without
clamping (see the counterexample). -/
theorem claim1_wf_off_decode_path (g : Option String) (s : String) (m : Mode)
    (h : g = none ∨ ∃ r, g = some r ∧
        (extractSpan '{' '}' r = none ∨
          ∃ t, extractSpan '{' '}' r = some t ∧ jsonParse t = none)) :
    resultWF (analyzeSymptoms g s m) = true := by
  rcases h with rfl | ⟨r, rfl, hr⟩
  · exact demo_wf s m
  · show resultWF (parseReasonerResponse r) = true
    rw [parseReasoner_fallback r hr]
    rfl

/-- Witness for C1 at a failing gateway in patient mode. -/
theorem claim1_witness :
    resultWF (analyzeSymptoms none "headache" Mode.patient) = true :=
  claim1_wf_off_decode_path none "headache" Mode.patient (Or.inl rfl)

/-- C1 counterexample: a successful gateway response carrying
overallConfidence 150 flows through analyzeSymptoms unclamped, so the
returned overall confidence lies outside [0,100] and the claimed
invariant fails on this outcome. -/
theorem claim1_counterexample :
    (analyzeSymptoms (some "\x7b\"overallConfidence\":150\x7d") "fever" Mode.doctor).overallConfidence
        = Json.num 150 ∧
    resultWF (analyzeSymptoms (some "\x7b\"overallConfidence\":150\x7d") "fever" Mode.doctor)
        = false :=
  ⟨rfl, rfl⟩

/-- C4 (amended): when the extracted span decodes, the mapping is by the
JavaScript defaulting operator: diagnoses, redFlags and recommendedTests
fall back to the empty array exactly when absent or falsy (and a truthy
value of any shape, array or not, passes through unchanged), the overall
confidence falls back to 0 exactly when absent or falsy, and
followUpQuestions is always the empty array. -/
theorem claim4_defensive_mapping (s t : String) (j : Json)
    (hspan : extractSpan '{' '}' s = some t) (hparse : jsonParse t = some j) :
    (parseReasonerResponse s).followUpQuestions = Json.arr [] ∧
    ((objGet j "diagnoses" = none ∨ ∃ v, objGet j "diagnoses" = some v ∧ truthy v = false) →
      (parseReasonerResponse s).diagnoses = Json.arr []) ∧
    (∀ v, objGet j "diagnoses" = some v → truthy v = true →
      (parseReasonerResponse s).diagnoses = v) ∧
    ((objGet j "redFlags" = none ∨ ∃ v, objGet j "redFlags" = some v ∧ truthy v = false) →
      (parseReasonerResponse s).redFlags = Json.arr []) ∧
    (∀ v, objGet j "redFlags" = some v → truthy v = true →
      (parseReasonerResponse s).redFlags = v) ∧
    ((objGet j "recommendedTests" = none ∨ ∃ v, objGet j "recommendedTests" = some v ∧ truthy v = false) →
      (parseReasonerResponse s).recommendedTests = Json.arr []) ∧
    (∀ v, objGet j "recommendedTests" = some v → truthy v = true →
      (parseReasonerResponse s).recommendedTests = v) ∧
    ((objGet j "overallConfidence" = none ∨ ∃ v, objGet j "overallConfidence" = some v ∧ truthy v = false) →
      (parseReasonerResponse s).overallConfidence = Json.num 0) ∧
    (∀ v, objGet j "overallConfidence" = some v → truthy v = true →
      (parseReasonerResponse s).overallConfidence = v) := by
  have hres : parseReasonerResponse s =
      { diagnoses := jsOr (objGet j "diagnoses") (Json.arr [])
        followUpQuestions := Json.arr []
        redFlags := jsOr (objGet j "redFlags") (Json.arr [])
        recommendedTests := jsOr (objGet j "recommendedTests") (Json.arr [])
        overallConfidence := jsOr (objGet j "overallConfidence") (Json.num 0) } := by
    simp only [parseReasonerResponse, hspan, hparse]
  rw [hres]
  exact ⟨rfl,
    fun h => jsOr_default _ _ h,
    fun v hv htr => jsOr_truthy _ _ v hv htr,
    fun h => jsOr_default _ _ h,
    fun v hv htr => jsOr_truthy _ _ v hv htr,
    fun h => jsOr_default _ _ h,
    fun v hv htr => jsOr_truthy _ _ v hv htr,
    fun h => jsOr_default _ _ h,
    fun v hv htr => jsOr_truthy _ _ v hv htr⟩

/-- Witness for C4: a decoded truthy diagnoses array passes through. -/
theorem claim4_witness :
    (parseReasonerResponse "\x7b\"diagnoses\":[1]\x7d").diagnoses = Json.arr [Json.num 1] :=
  (claim4_defensive_mapping "\x7b\"diagnoses\":[1]\x7d" "\x7b\"diagnoses\":[1]\x7d"
      (Json.obj [("diagnoses", Json.arr [Json.num 1])]) rfl rfl).2.2.1
    (Json.arr [Json.num 1]) rfl rfl

/-- C4 counterexample: a truthy non-array diagnoses field (the number 5)
is not replaced by the empty list, contradicting the claimed
absent-or-non-array defaulting. -/
theorem claim4_counterexample :
    (parseReasonerResponse "\x7b\"diagnoses\":5\x7d").diagnoses = Json.num 5 ∧
    Json.num 5 ≠ Json.arr [] :=
  ⟨rfl, fun h => Json.noConfusion h⟩

/-- C6 (amended): parseFollowUpQuestions is total and never raises; on
every input where the JSON-array path is not taken (no bracket span, or
the span does not decode) it returns a non-empty list, and exactly the
fixed three generic clarification questions when the input contains no
question mark.  A successfully decoded JSON array, however, is returned
as-is and may be empty (see the counterexample). -/
theorem claim6_heuristic_nonempty (s : String)
    (h : extractSpan '[' ']' s = none ∨
         ∃ t, extractSpan '[' ']' s = some t ∧ jsonParse t = none) :
    parseFollowUpQuestions s ≠ [] ∧
    (¬ '?' ∈ s.toList → parseFollowUpQuestions s = defaultQuestions.map Json.str) := by
  have hvia : parseFollowUpQuestions s =
      (if (heuristicQuestions s).isEmpty then defaultQuestions
       else heuristicQuestions s).map Json.str := by
    rcases h with h | ⟨t, ht, hp⟩
    · simp only [parseFollowUpQuestions, h]
    · simp only [parseFollowUpQuestions, ht, hp]
  constructor
  · rw [hvia]
    rcases hq : heuristicQuestions s with _ | ⟨a, l⟩
    · simp [hq, defaultQuestions]
    · simp [hq]
  · intro hnq
    rw [hvia, heuristic_empty_of_no_qmark s hnq]
    rfl

/-- Witness for C6 at a concrete question-mark-free prose input. -/
theorem claim6_witness :
    parseFollowUpQuestions "all good, nothing to ask" = defaultQuestions.map Json.str :=
  (claim6_heuristic_nonempty "all good, nothing to ask" (Or.inl rfl)).2 (by decide)

/-- C6 counterexample: the input consisting of an empty JSON array
decodes and is returned as-is, so parseFollowUpQuestions returns the
empty list, contradicting the claimed non-emptiness for every input. -/
theorem claim6_counterexample : parseFollowUpQuestions "[]" = [] := rfl

/-- C7: with no bracket span the heuristic keeps exactly the lines
containing a question mark, trims each and strips a leading enumeration
(digits, optional dot, whitespace), takes at most five, and the result is
returned whenever non-empty; the cited three-line input yields exactly
the two stripped questions. -/
theorem claim7_heuristic_extraction :
    (∀ s, extractSpan '[' ']' s = none →
      heuristicQuestions s =
        ((((splitLines s.toList).filter (fun l => l.contains '?')).map
          (fun l => String.mk (stripEnum (trimWs l)))).take 5) ∧
      (heuristicQuestions s ≠ [] →
        parseFollowUpQuestions s = (heuristicQuestions s).map Json.str)) ∧
    parseFollowUpQuestions "1. What triggers it?\n2. How long?\nNo question here."
        = [Json.str "What triggers it?", Json.str "How long?"] := by
  constructor
  · intro s hs
    refine ⟨rfl, ?_⟩
    intro hne
    simp only [parseFollowUpQuestions, hs]
    rcases hq : heuristicQuestions s with _ | ⟨a, l⟩
    · exact absurd hq hne
    · simp [hq]
  · rfl

/-- Witness for C7 at a concrete single-question input. -/
theorem claim7_witness :
    parseFollowUpQuestions "Since when?" = (heuristicQuestions "Since when?").map Json.str :=
  (claim7_heuristic_extraction.1 "Since when?" rfl).2 (by decide)

/-- C8: for every symptom string the demo engine selects a pattern of
maximal keyword count over the lower-cased input, a later entry winning
only by a strictly greater count (so ties and the no-match case go to the
earliest entry), and the upper-case input HEADACHE today selects the
headache pattern. -/
theorem claim8_selection :
    (∀ s,
      (∀ p ∈ patterns,
        countMatches ((toLowerCase s).toList) p
          ≤ countMatches ((toLowerCase s).toList) (selectBest ((toLowerCase s).toList))) ∧
      (selectBest ((toLowerCase s).toList) = febrilePattern ∨
        (selectBest ((toLowerCase s).toList) = headachePattern ∧
          countMatches ((toLowerCase s).toList) febrilePattern
            < countMatches ((toLowerCase s).toList) headachePattern) ∨
        (selectBest ((toLowerCase s).toList) = chestPattern ∧
          countMatches ((toLowerCase s).toList) febrilePattern
            < countMatches ((toLowerCase s).toList) chestPattern ∧
          countMatches ((toLowerCase s).toList) headachePattern
            < countMatches ((toLowerCase s).toList) chestPattern))) ∧
    selectBest ((toLowerCase "HEADACHE today").toList) = headachePattern := by
  constructor
  · intro s
    have he := selectBest_eq ((toLowerCase s).toList)
    constructor
    · intro p hp
      have hp3 : p = febrilePattern ∨ p = headachePattern ∨ p = chestPattern := by
        simpa [patterns] using hp
      rw [he]
      rcases hp3 with rfl | rfl | rfl <;> split_ifs <;> omega
    · rw [he]
      split_ifs with h1 h2 h3
      · exact Or.inr (Or.inr ⟨rfl, by omega, by omega⟩)
      · exact Or.inr (Or.inl ⟨rfl, h1⟩)
      · exact Or.inr (Or.inr ⟨rfl, by omega, by omega⟩)
      · exact Or.inl rfl
  · decide

/-- Witness for C8: maximality instantiated at a concrete input and a
concrete table entry. -/
theorem claim8_witness :
    countMatches ((toLowerCase "sore throat").toList) chestPattern
      ≤ countMatches ((toLowerCase "sore throat").toList)
          (selectBest ((toLowerCase "sore throat").toList)) :=
  (claim8_selection.1 "sore throat").1 chestPattern (by decide)

/-- C9: the top-level red-flag list of a demo analysis is the selected
pattern's red flags verbatim in both modes, while each candidate's
red-flag list carries the warning-glyph prefix in patient mode and is
verbatim in doctor mode. -/
theorem claim9_redflag_glyph (s : String) :
    (generateDemoAnalysis s Mode.doctor).redFlags
        = (selectBest ((toLowerCase s).toList)).redFlags ∧
    (generateDemoAnalysis s Mode.patient).redFlags
        = (selectBest ((toLowerCase s).toList)).redFlags ∧
    (∀ d ∈ (generateDemoAnalysis s Mode.patient).diagnoses,
      d.redFlags = (selectBest ((toLowerCase s).toList)).redFlags.map (fun f => "⚠️ " ++ f)) ∧
    (∀ d ∈ (generateDemoAnalysis s Mode.doctor).diagnoses,
      d.redFlags = (selectBest ((toLowerCase s).toList)).redFlags) := by
  refine ⟨rfl, rfl, ?_, ?_⟩
  · intro d hd
    simp only [generateDemoAnalysis, demoCore, List.mem_map] at hd
    obtain ⟨a, ha, rfl⟩ := hd
    rfl
  · intro d hd
    simp only [generateDemoAnalysis, demoCore, List.mem_map] at hd
    obtain ⟨a, ha, rfl⟩ := hd
    rfl

/-- Witness for C9: the first candidate of a concrete patient-mode demo
analysis carries the prefixed red flags. -/
theorem claim9_witness :
    demoSampleDiag.redFlags
      = (selectBest ((toLowerCase "x").toList)).redFlags.map (fun f => "⚠️ " ++ f) :=
  (claim9_redflag_glyph "x").2.2.1 demoSampleDiag (by decide)
